import Mathlib

/- Shallow embedding of the shtym profile-resolution and processor pipeline
(src/shtym). Python exceptions are modelled with Except; collaborator objects
(file reader, TOML parsing, LLM client) are modelled by the outcome their one
relevant call would produce; mutable memoization state is passed explicitly;
call counts that the repository's tests observe through mocks are returned
explicitly alongside results. -/

/-- Error raised when a profile name is unknown to a source; carries the
requested name (src/shtym/domain/profile.py, ProfileNotFoundError). -/
structure ProfileNotFoundError where
  profile_name : String
deriving Repr, DecidableEq

/-- LLM service settings with their literal field defaults
(src/shtym/infrastructure/llm_profile.py, LLMSettings). -/
structure LLMSettings where
  model_name : String := "llama3.2:3b"
  base_url : String := "http://localhost:11434"
deriving Repr, DecidableEq

/-- The default prompt template of LLMProfile
(src/shtym/infrastructure/llm_profile.py). -/
def defaultPromptTemplate : String :=
  "Your task is to summarize and distill the essential information " ++
  "from command output."

/-- Profile for LLM-based output transformation, with its field defaults:
LLMProfile() in Python is ({} : LLMProfile) here
(src/shtym/infrastructure/llm_profile.py, LLMProfile). -/
structure LLMProfile where
  prompt_template : String := defaultPromptTemplate
  llm_settings : LLMSettings := {}
deriving Repr, DecidableEq

/-- The polymorphic Profile value: the bare domain Profile
(src/shtym/domain/profile.py) or an LLMProfile. -/
inductive Profile where
  | base
  | llm (p : LLMProfile)
deriving Repr, DecidableEq

/-- Environment lookup as os.environ.get(key, fallback): the raw value when
the key is present (even when blank), the fallback otherwise. -/
def envGet (env : List (String × String)) (key fallback : String) : String :=
  match env.lookup key with
  | some v => v
  | none => fallback

/-- LLMProfile.from_env (src/shtym/infrastructure/llm_profile.py): settings
taken from SHTYM_LLM_SETTINGS__MODEL and SHTYM_LLM_SETTINGS__BASE_URL via
os.environ.get with the LLMSettings field defaults as fallbacks. -/
def LLMProfile.from_env (env : List (String × String)) : LLMProfile :=
  { llm_settings :=
      { model_name := envGet env "SHTYM_LLM_SETTINGS__MODEL"
          (LLMSettings.model_name {})
        base_url := envGet env "SHTYM_LLM_SETTINGS__BASE_URL"
          (LLMSettings.base_url {}) } }

/-- BuiltinDefaultProfileRepository.get
(src/shtym/infrastructure/profile_repositories/builtin_default.py): the name
"default" yields LLMProfile() (the plain field defaults; the environment is
not consulted), every other name raises ProfileNotFoundError(name). -/
def BuiltinDefaultProfileRepository.get (name : String) :
    Except ProfileNotFoundError Profile :=
  if name = "default" then .ok (.llm {}) else .error ⟨name⟩

/-- MultiSourceProfileRepository.get
(src/shtym/infrastructure/profile_repositories/multi_source.py): each source
is modelled by its get behavior; the loop tries each source in order,
returns the first success, and raises ProfileNotFoundError(name) with the
originally requested name after the list is exhausted. -/
def MultiSourceProfileRepository.get
    (repositories : List (String → Except ProfileNotFoundError Profile))
    (name : String) : Except ProfileNotFoundError Profile :=
  match repositories with
  | [] => .error ⟨name⟩
  | repository :: rest =>
    match repository name with
    | .ok p => .ok p
    | .error _ => MultiSourceProfileRepository.get rest name

/-- Error raised by FileReader.read_str on a missing or unreadable file
(src/shtym/infrastructure/fileio.py, FileReadError kind). -/
structure FileReadError where
  message : String
deriving Repr, DecidableEq

/-- Error raised by TOML profile parsing (shtym.infrastructure.profile_parsers,
ProfileParserError). -/
structure ProfileParserError where
  message : String
deriving Repr, DecidableEq

/-- FileBasedProfileRepository state
(src/shtym/infrastructure/profile_repositories/file_based.py): the injected
file reader is modelled by the outcome its read_str call produces, the
injected parser by the outcome its parse call produces on a given content,
and the `_profiles` memoization cell is an explicit optional mapping. -/
structure FileBasedProfileRepository where
  read_str : Except FileReadError String
  parse : String → Except ProfileParserError (List (String × Profile))
  _profiles : Option (List (String × Profile))

/-- Outcome of one evaluation of the `profiles` property: the mapping it
returns, the repository state afterwards, and how many read_str and parse
calls this evaluation performed (the counts the repository's unit tests
observe through mock assertions). -/
structure ProfilesCall where
  value : List (String × Profile)
  repo : FileBasedProfileRepository
  reads : Nat
  parses : Nat

/-- The `profiles` property
(src/shtym/infrastructure/profile_repositories/file_based.py): when the cell
is unset, read the file and parse it, storing the result; any FileReadError
or ProfileParserError makes the cell an empty mapping; a set cell is
returned as is with no read and no parse. -/
def FileBasedProfileRepository.profiles (repo : FileBasedProfileRepository) :
    ProfilesCall :=
  match repo._profiles with
  | some m => ⟨m, repo, 0, 0⟩
  | none =>
    match repo.read_str with
    | .error _ => ⟨[], { repo with _profiles := some [] }, 1, 0⟩
    | .ok content =>
      match repo.parse content with
      | .ok m => ⟨m, { repo with _profiles := some m }, 1, 1⟩
      | .error _ => ⟨[], { repo with _profiles := some [] }, 1, 1⟩

/-- Outcome of one FileBasedProfileRepository.get call: its result, the
repository state afterwards, and the read_str and parse calls performed. -/
structure GetCall where
  result : Except ProfileNotFoundError Profile
  repo : FileBasedProfileRepository
  reads : Nat
  parses : Nat

/-- FileBasedProfileRepository.get
(src/shtym/infrastructure/profile_repositories/file_based.py): `if name in
self.profiles: return self.profiles[name]` evaluates the profiles property
a second time on the hit path (by then the cell is set, so no further read);
an absent name raises ProfileNotFoundError(name). The inner none branch is
unreachable because the second evaluation returns the freshly stored cell. -/
def FileBasedProfileRepository.get (repo : FileBasedProfileRepository)
    (name : String) : GetCall :=
  let c1 := repo.profiles
  match c1.value.lookup name with
  | some _ =>
    let c2 := c1.repo.profiles
    ⟨match c2.value.lookup name with
      | some p => .ok p
      | none => .error ⟨name⟩,
     c2.repo, c1.reads + c2.reads, c1.parses + c2.parses⟩
  | none => ⟨.error ⟨name⟩, c1.repo, c1.reads, c1.parses⟩

/-- Exceptions of arbitrary Python kind, as they cross the LLM client
boundary: the kinds the repository's tests exercise plus an arbitrary
other kind. -/
inductive PyException where
  | moduleNotFoundError (msg : String)
  | connectionError (msg : String)
  | runtimeError (msg : String)
  | other (kind msg : String)
deriving Repr, DecidableEq

/-- An LLM client capability (shtym.domain.llm_client protocol): `chat` is
modelled by the outcome one chat(system_prompt, user_prompt, error_message)
call produces — a reply or a raised exception of any kind — and
is_available by the boolean it reports. -/
structure LLMClient where
  chat : String → String → String → Except PyException String
  is_available : Bool

/-- The system prompt LLMProcessor.process builds from the command
(src/shtym/domain/processor.py, lines 88-95). -/
def llmSystemPrompt (command : List String) : String :=
  "Your task is to summarize and distill the essential information" ++
  " from the command '" ++ String.intercalate " " command ++ "':\n\n" ++
  "The provided user message is the raw output of the command so it may" ++
  " contain extraneous information, errors, or formatting artifacts." ++
  " Your goal is to extract the most relevant and accurate information." ++
  " Also, error will be provided if any as a separate user message."

/-- Result of one Processor.process call together with the number of
llm_client.chat invocations it performed. -/
structure ProcessOutcome where
  result : String
  chatCalls : Nat
deriving Repr, DecidableEq

/-- LLMProcessor.process (src/shtym/domain/processor.py, lines 75-104):
chat is called exactly once; any exception it raises is caught and the raw
stdout returned; otherwise the chat reply is returned. -/
def LLMProcessor.process (llm_client : LLMClient) (command : List String)
    (stdout stderr : String) : ProcessOutcome :=
  match llm_client.chat (llmSystemPrompt command) stdout stderr with
  | .ok result => ⟨result, 1⟩
  | .error _ => ⟨stdout, 1⟩

/-- The Processor value ShtymApplication holds: PassThroughProcessor or
LLMProcessor bound to its client (src/shtym/domain/processor.py). -/
inductive Processor where
  | passThrough
  | llmProcessor (llm_client : LLMClient)

/-- Processor.process dispatch: PassThroughProcessor.process returns stdout
unchanged and never touches an LLM client; LLMProcessor.process delegates
(src/shtym/domain/processor.py). -/
def Processor.process : Processor → List String → String → String →
    ProcessOutcome
  | .passThrough, _, stdout, _ => ⟨stdout, 0⟩
  | .llmProcessor llm_client, command, stdout, stderr =>
    LLMProcessor.process llm_client command stdout stderr

/-- Processor.is_available: PassThroughProcessor always reports true,
LLMProcessor delegates to its client (src/shtym/domain/processor.py). -/
def Processor.is_available : Processor → Bool
  | .passThrough => true
  | .llmProcessor llm_client => llm_client.is_available

/-- The ollama import-and-create step of ShtymApplication.create
(src/shtym/application.py, lines 91-96): importing the module raises
ModuleNotFoundError, or OllamaLLMClient.create() yields a client. -/
inductive OllamaImport where
  | moduleNotFound
  | imported (llm_client : LLMClient)

/-- Outcome of ShtymApplication.create: the processor the application is
constructed with, and how many times the processor-construction block
(src/shtym/application.py, lines 90-105, the try body) executed. -/
structure CreateOutcome where
  processor : Processor
  constructionRuns : Nat

/-- ShtymApplication.create (src/shtym/application.py, lines 82-106): a
ProfileNotFoundError from the repository's get short-circuits to
PassThroughProcessor without running the construction block; otherwise the
block runs once: ModuleNotFoundError yields PassThroughProcessor, an
imported client yields LLMProcessor when it reports available and
PassThroughProcessor when not. -/
def ShtymApplication.create (getResult : Except ProfileNotFoundError Profile)
    (ollama : OllamaImport) : CreateOutcome :=
  match getResult with
  | .error _ => ⟨.passThrough, 0⟩
  | .ok _ =>
    match ollama with
    | .moduleNotFound => ⟨.passThrough, 1⟩
    | .imported llm_client =>
      if llm_client.is_available then ⟨.llmProcessor llm_client, 1⟩
      else ⟨.passThrough, 1⟩

/-- Modelled from the spec: CommandExecution, the immutable execution record
(command argv, stdout, stderr) of the final-generation
shtym.domain.processor, whose source is absent from src and referenced only
by the repository's tests. -/
structure CommandExecution where
  command : List String
  stdout : String
  stderr : String
deriving Repr, DecidableEq

/-- Modelled from the spec: ProcessingError, raised when a processor's
process call fails at run time; carries the triggering cause and the
execution that failed (final-generation shtym.domain.processor, absent
from src). -/
structure ProcessingError where
  message : String
  execution : CommandExecution
deriving Repr, DecidableEq

/-- Modelled from the spec: ProcessorCreationError, raised when building a
Processor from a Profile fails; carries a diagnostic message
(final-generation shtym.domain.processor, absent from src). -/
structure ProcessorCreationError where
  message : String
deriving Repr, DecidableEq

/-- Modelled from the spec: a built processor of the final generation,
observed through its behavior — process is the outcome one call produces
(a result or a raised ProcessingError) and is_available the boolean it
reports (final-generation shtym.domain.processor, absent from src). -/
structure DomainProcessor where
  process : CommandExecution → Except ProcessingError String
  is_available : Bool

/-- Modelled from the spec: the processor create_processor_with_fallback
returns — PassThroughProcessor, or the built processor wrapped in the
FallbackProcessor decorator (final-generation shtym.domain.processor,
absent from src). -/
inductive ResolvedProcessor where
  | passThrough
  | fallbackWrapped (wrapped : DomainProcessor)

/-- Modelled from the spec: FallbackProcessor.process — it calls the
wrapped processor's process exactly once (the second component counts the
invocations), returns its result on success, and on ProcessingError
returns the raw stdout of the execution instead (final-generation
shtym.domain.processor, absent from src). -/
def FallbackProcessor.process (wrapped : DomainProcessor)
    (execution : CommandExecution) : String × Nat :=
  match wrapped.process execution with
  | .ok result => (result, 1)
  | .error _ => (execution.stdout, 1)

/-- Modelled from the spec: ResolvedProcessor.process — passthrough returns
stdout unchanged with zero wrapped invocations; the fallback wrapper
delegates (final-generation shtym.domain.processor, absent from src). -/
def ResolvedProcessor.process : ResolvedProcessor → CommandExecution →
    String × Nat
  | .passThrough, execution => (execution.stdout, 0)
  | .fallbackWrapped wrapped, execution =>
    FallbackProcessor.process wrapped execution

/-- Modelled from the spec: create_processor_with_fallback (spec section
4.4); the factory is modelled by the outcome its create(profile) call
produces. ProcessorCreationError yields PassThroughProcessor; a built
processor reporting unavailable yields PassThroughProcessor; an available
one is wrapped in FallbackProcessor (final-generation
shtym.domain.processor, absent from src and referenced only by tests). -/
def create_processor_with_fallback
    (factory_create : Except ProcessorCreationError DomainProcessor) :
    ResolvedProcessor :=
  match factory_create with
  | .error _ => .passThrough
  | .ok p => if p.is_available then .fallbackWrapped p else .passThrough

/-- Modelled from the spec: a TOML value as the external TOML syntax layer
(the standard tomllib library, outside this repository) delivers it —
only the shapes profile parsing inspects are distinguished. -/
inductive TomlValue where
  | str (s : String)
  | table (entries : List (String × TomlValue))
  | otherScalar

/-- Modelled from the spec: pydantic URL validation of base_url, abstracted
to a well-formedness check (a recognized scheme followed by a nonempty
rest). -/
def isValidBaseUrl (s : String) : Bool :=
  (String.isPrefixOf "http://" s && s.length > 7) ||
  (String.isPrefixOf "https://" s && s.length > 8)

/-- Modelled from the spec: parsing one profile table of the TOML profile
parsing layer (shtym.infrastructure.profile_parsers, absent from src and
referenced only by tests): the value must be a table with a type
discriminator; only "llm" is recognized; prompt_template and llm_settings
fall back to the LLMProfile field defaults; an invalid base_url is a
validation failure, surfaced as ProfileParserError. -/
def parseProfileValue (v : TomlValue) : Except ProfileParserError Profile :=
  match v with
  | .table entries =>
    match entries.lookup "type" with
    | some (.str "llm") =>
      let prompt :=
        match entries.lookup "prompt_template" with
        | some (.str s) => s
        | _ => defaultPromptTemplate
      let settings : Except ProfileParserError LLMSettings :=
        match entries.lookup "llm_settings" with
        | none => .ok {}
        | some (.table ses) =>
          let model :=
            match ses.lookup "model_name" with
            | some (.str s) => s
            | _ => LLMSettings.model_name {}
          let url :=
            match ses.lookup "base_url" with
            | some (.str s) => s
            | _ => LLMSettings.base_url {}
          if isValidBaseUrl url then .ok ⟨model, url⟩
          else .error ⟨"Invalid profile data"⟩
        | some _ => .error ⟨"Invalid profile data"⟩
      match settings with
      | .ok s => .ok (.llm ⟨prompt, s⟩)
      | .error e => .error e
    | some (.str _) => .error ⟨"Invalid profile type"⟩
    | some _ => .error ⟨"Invalid profile data"⟩
    | none => .error ⟨"Invalid profile data"⟩
  | _ => .error ⟨"Invalid profile data"⟩

/-- Modelled from the spec: parsing every entry of the profiles table in
order, failing on the first invalid one
(shtym.infrastructure.profile_parsers, absent from src). -/
def parseProfileEntries : List (String × TomlValue) →
    Except ProfileParserError (List (String × Profile))
  | [] => .ok []
  | (name, v) :: rest =>
    match parseProfileValue v with
    | .error e => .error e
    | .ok p =>
      match parseProfileEntries rest with
      | .error e => .error e
      | .ok ps => .ok ((name, p) :: ps)

/-- Modelled from the spec: TOMLProfileParser.parse
(shtym.infrastructure.profile_parsers, absent from src and referenced only
by tests). The TOML syntax layer is external, so the content string is
represented by the outcome tomllib produces on it: a syntax error, or the
top-level table. A missing profiles key, a non-table profiles value, and
every per-profile failure are ProfileParserError; an empty profiles table
is an empty mapping. -/
def TOMLProfileParser.parse
    (content : Except ProfileParserError (List (String × TomlValue))) :
    Except ProfileParserError (List (String × Profile)) :=
  match content with
  | .error _ => .error ⟨"Profile parsing error"⟩
  | .ok top =>
    match top.lookup "profiles" with
    | none => .error ⟨"Missing profiles section"⟩
    | some (.table entries) => parseProfileEntries entries
    | some _ => .error ⟨"The profiles section must be a table"⟩

/-- A completed child process as subprocess.run returns it
(stdout, stderr, returncode). -/
structure CompletedProcess where
  stdout : String
  stderr : String
  returncode : Int
deriving Repr, DecidableEq

/-- Result of processing a command with a processor
(src/shtym/application.py, ProcessedCommandResult). -/
structure ProcessedCommandResult where
  processed_output : String
  stderr : String
  returncode : Int

/-- ShtymApplication.process_command (src/shtym/application.py, lines
48-65): the child process outcome is modelled by the CompletedProcess
run_command returns; the processor transforms stdout, while stderr and
returncode are copied from the child process unchanged. -/
def ShtymApplication.process_command (processor : Processor)
    (command : List String) (run_result : CompletedProcess) :
    ProcessedCommandResult :=
  { processed_output :=
      (processor.process command run_result.stdout run_result.stderr).result
    stderr := run_result.stderr
    returncode := run_result.returncode }

theorem multiSource_all_fail
    (repositories : List (String → Except ProfileNotFoundError Profile))
    (name : String)
    (h : ∀ r ∈ repositories, ∃ e, r name = .error e) :
    MultiSourceProfileRepository.get repositories name = .error ⟨name⟩ := by
  induction repositories with
  | nil => rfl
  | cons repository rest ih =>
    obtain ⟨e, he⟩ := h repository (List.mem_cons_self _ _)
    simp only [MultiSourceProfileRepository.get, he]
    exact ih fun r hr => h r (List.mem_cons_of_mem _ hr)

theorem multiSource_first_success
    (pre post : List (String → Except ProfileNotFoundError Profile))
    (r : String → Except ProfileNotFoundError Profile)
    (name : String) (p : Profile)
    (hpre : ∀ s ∈ pre, ∃ e, s name = .error e)
    (hr : r name = .ok p) :
    MultiSourceProfileRepository.get (pre ++ r :: post) name = .ok p := by
  induction pre with
  | nil => simp only [List.nil_append, MultiSourceProfileRepository.get, hr]
  | cons s rest ih =>
    obtain ⟨e, he⟩ := hpre s (List.mem_cons_self _ _)
    simp only [List.cons_append, MultiSourceProfileRepository.get, he]
    exact ih fun s' hs' => hpre s' (List.mem_cons_of_mem _ hs')

theorem fileRepo_get_cached (repo : FileBasedProfileRepository)
    (m : List (String × Profile)) (h : repo._profiles = some m)
    (name : String) :
    repo.get name =
      ⟨match m.lookup name with
        | some p => .ok p
        | none => .error ⟨name⟩, repo, 0, 0⟩ := by
  simp only [FileBasedProfileRepository.get,
    FileBasedProfileRepository.profiles, h]
  cases m.lookup name <;> rfl

theorem fileRepo_get_fresh_ok (repo : FileBasedProfileRepository)
    (content : String) (m : List (String × Profile)) (name : String)
    (hcache : repo._profiles = none)
    (hread : repo.read_str = .ok content)
    (hparse : repo.parse content = .ok m) :
    repo.get name =
      ⟨match m.lookup name with
        | some p => .ok p
        | none => .error ⟨name⟩, { repo with _profiles := some m }, 1, 1⟩ := by
  simp only [FileBasedProfileRepository.get,
    FileBasedProfileRepository.profiles, hcache, hread, hparse]
  cases m.lookup name <;> rfl

theorem fileRepo_get_fresh_fail (repo : FileBasedProfileRepository)
    (hcache : repo._profiles = none)
    (hfail : (∃ e, repo.read_str = .error e) ∨
      (∃ c e, repo.read_str = .ok c ∧ repo.parse c = .error e))
    (name : String) :
    (repo.get name).result = .error ⟨name⟩ ∧
      (repo.get name).repo = { repo with _profiles := some [] } := by
  rcases hfail with ⟨e, he⟩ | ⟨c, e, hc, he⟩
  · simp only [FileBasedProfileRepository.get,
      FileBasedProfileRepository.profiles, hcache, he]
    exact ⟨rfl, rfl⟩
  · simp only [FileBasedProfileRepository.get,
      FileBasedProfileRepository.profiles, hcache, hc, he]
    exact ⟨rfl, rfl⟩

/-- Claim C1: for every profile name absent from every configured source,
ShtymApplication.create (the pipeline entry point) yields the
PassThroughProcessor, the processor-construction block is never executed,
and the resulting processor's process returns the input stdout unchanged
for every input. -/
theorem unknown_profile_yields_passthrough_without_construction
    (repositories : List (String → Except ProfileNotFoundError Profile))
    (name : String) (ollama : OllamaImport)
    (h : ∀ r ∈ repositories, ∃ e, r name = .error e) :
    ShtymApplication.create
        (MultiSourceProfileRepository.get repositories name) ollama
      = ⟨.passThrough, 0⟩ ∧
    ∀ command stdout stderr,
      ((ShtymApplication.create
          (MultiSourceProfileRepository.get repositories name)
          ollama).processor.process command stdout stderr).result = stdout := by
  rw [multiSource_all_fail repositories name h]
  exact ⟨rfl, fun _ _ _ => rfl⟩

theorem unknown_profile_yields_passthrough_without_construction_witness :
    ShtymApplication.create
        (MultiSourceProfileRepository.get
          [fun n => .error ⟨n⟩] "nonexistent") .moduleNotFound
      = ⟨.passThrough, 0⟩ ∧
    ((ShtymApplication.create
        (MultiSourceProfileRepository.get
          [fun n => .error ⟨n⟩] "nonexistent") .moduleNotFound).processor.process
        ["echo", "hello"] "hello\n" "").result = "hello\n" := by
  have h := unknown_profile_yields_passthrough_without_construction
    [fun n => .error ⟨n⟩] "nonexistent" .moduleNotFound
    (fun r hr => by
      rcases List.mem_singleton.mp hr with rfl
      exact ⟨⟨"nonexistent"⟩, rfl⟩)
  exact ⟨h.1, h.2 ["echo", "hello"] "hello\n" ""⟩

/-- Claim C2: create_processor_with_fallback returns PassThroughProcessor
when the factory's create raises ProcessorCreationError, returns
PassThroughProcessor when the built processor reports unavailable, and
returns the built processor wrapped in FallbackProcessor when it reports
available; the function is total (its result type is a processor, so no
exception propagates). -/
theorem create_with_fallback_case_analysis
    (factory_create : Except ProcessorCreationError DomainProcessor) :
    (∀ e, factory_create = .error e →
      create_processor_with_fallback factory_create = .passThrough) ∧
    (∀ p, factory_create = .ok p → p.is_available = false →
      create_processor_with_fallback factory_create = .passThrough) ∧
    (∀ p, factory_create = .ok p → p.is_available = true →
      create_processor_with_fallback factory_create = .fallbackWrapped p) := by
  refine ⟨?_, ?_, ?_⟩
  · rintro e rfl
    rfl
  · rintro p rfl hav
    simp [create_processor_with_fallback, hav]
  · rintro p rfl hav
    simp [create_processor_with_fallback, hav]

theorem create_with_fallback_case_analysis_witness :
    create_processor_with_fallback (.error ⟨"Creation failed"⟩)
      = .passThrough ∧
    create_processor_with_fallback (.ok ⟨fun e => .ok e.stdout, false⟩)
      = .passThrough ∧
    create_processor_with_fallback (.ok ⟨fun e => .ok e.stdout, true⟩)
      = .fallbackWrapped ⟨fun e => .ok e.stdout, true⟩ :=
  ⟨(create_with_fallback_case_analysis _).1 _ rfl,
   (create_with_fallback_case_analysis _).2.1 _ rfl rfl,
   (create_with_fallback_case_analysis _).2.2 _ rfl rfl⟩

/-- Claim C3: for a resolved LLM profile whose backend reports available,
the pipeline returns the LLM processor, and that processor has run-time
fallback semantics: when the inner processing call (llm_client.chat) raises
on an execution, the overall result is that execution's raw stdout and the
processing call was invoked exactly once. -/
theorem available_llm_processor_runtime_fallback
    (profile : Profile) (llm_client : LLMClient)
    (havail : llm_client.is_available = true)
    (command : List String) (stdout stderr : String) (e : PyException)
    (hchat : llm_client.chat (llmSystemPrompt command) stdout stderr
      = .error e) :
    (ShtymApplication.create (.ok profile) (.imported llm_client)).processor
      = .llmProcessor llm_client ∧
    (ShtymApplication.create (.ok profile)
        (.imported llm_client)).processor.process command stdout stderr
      = ⟨stdout, 1⟩ := by
  have h1 : ShtymApplication.create (.ok profile) (.imported llm_client)
      = ⟨.llmProcessor llm_client, 1⟩ := by
    simp [ShtymApplication.create, havail]
  rw [h1]
  refine ⟨rfl, ?_⟩
  simp [Processor.process, LLMProcessor.process, hchat]

theorem available_llm_processor_runtime_fallback_witness :
    (ShtymApplication.create (.ok (.llm {}))
        (.imported ⟨fun _ _ _ => .error (.connectionError "Ollama not reachable"),
          true⟩)).processor
      = .llmProcessor ⟨fun _ _ _ => .error (.connectionError "Ollama not reachable"),
          true⟩ ∧
    (ShtymApplication.create (.ok (.llm {}))
        (.imported ⟨fun _ _ _ => .error (.connectionError "Ollama not reachable"),
          true⟩)).processor.process ["echo", "test"] "test output" ""
      = ⟨"test output", 1⟩ :=
  available_llm_processor_runtime_fallback (.llm {})
    ⟨fun _ _ _ => .error (.connectionError "Ollama not reachable"), true⟩
    rfl ["echo", "test"] "test output" "" (.connectionError "Ollama not reachable")
    rfl

/-- Claim C4: the multi-source resolver tries the sources in priority order
and returns the profile from the first source that succeeds; when every
source fails with ProfileNotFoundError it raises ProfileNotFoundError
carrying the originally requested name. -/
theorem multi_source_priority_resolution
    (repositories : List (String → Except ProfileNotFoundError Profile))
    (name : String) :
    ((∀ r ∈ repositories, ∃ e, r name = .error e) →
      MultiSourceProfileRepository.get repositories name = .error ⟨name⟩) ∧
    (∀ pre r post p, repositories = pre ++ r :: post →
      (∀ s ∈ pre, ∃ e, s name = .error e) → r name = .ok p →
      MultiSourceProfileRepository.get repositories name = .ok p) := by
  constructor
  · exact multiSource_all_fail repositories name
  · rintro pre r post p rfl hpre hr
    exact multiSource_first_success pre post r name p hpre hr

theorem multi_source_priority_resolution_witness :
    MultiSourceProfileRepository.get
      [fun n => .error ⟨n⟩, fun n => .error ⟨n⟩] "test-profile"
      = .error ⟨"test-profile"⟩ ∧
    MultiSourceProfileRepository.get
      [fun n => .error ⟨n⟩, fun _ => .ok .base] "test-profile"
      = .ok .base := by
  constructor
  · exact (multi_source_priority_resolution
      [fun n => .error ⟨n⟩, fun n => .error ⟨n⟩] "test-profile").1
      (fun r hr => by
        rcases List.mem_cons.mp hr with rfl | h
        · exact ⟨⟨"test-profile"⟩, rfl⟩
        · rcases List.mem_singleton.mp h with rfl
          exact ⟨⟨"test-profile"⟩, rfl⟩)
  · exact (multi_source_priority_resolution
      [fun n => .error ⟨n⟩, fun _ => .ok .base] "test-profile").2
      [fun n => .error ⟨n⟩] (fun _ => .ok .base) [] .base rfl
      (fun s hs => by
        rcases List.mem_singleton.mp hs with rfl
        exact ⟨⟨"test-profile"⟩, rfl⟩)
      rfl

/-- Claim C5: on a FileBasedProfileRepository whose backing file is readable
and parseable and whose cache is fresh, two sequential get calls on the
same instance perform exactly one read_str call and one parse call in
total. -/
theorem file_source_reads_and_parses_once
    (repo : FileBasedProfileRepository) (content : String)
    (m : List (String × Profile)) (name name2 : String)
    (hcache : repo._profiles = none)
    (hread : repo.read_str = .ok content)
    (hparse : repo.parse content = .ok m) :
    (repo.get name).reads + ((repo.get name).repo.get name2).reads = 1 ∧
    (repo.get name).parses + ((repo.get name).repo.get name2).parses = 1 := by
  rw [fileRepo_get_fresh_ok repo content m name hcache hread hparse]
  rw [fileRepo_get_cached { repo with _profiles := some m } m rfl name2]
  exact ⟨rfl, rfl⟩

theorem file_source_reads_and_parses_once_witness :
    (FileBasedProfileRepository.get
        ⟨.ok "dummy content", fun _ => .ok [("summary", .base)], none⟩
        "summary").reads +
      ((FileBasedProfileRepository.get
          ⟨.ok "dummy content", fun _ => .ok [("summary", .base)], none⟩
          "summary").repo.get "summary").reads = 1 ∧
    (FileBasedProfileRepository.get
        ⟨.ok "dummy content", fun _ => .ok [("summary", .base)], none⟩
        "summary").parses +
      ((FileBasedProfileRepository.get
          ⟨.ok "dummy content", fun _ => .ok [("summary", .base)], none⟩
          "summary").repo.get "summary").parses = 1 :=
  file_source_reads_and_parses_once
    ⟨.ok "dummy content", fun _ => .ok [("summary", .base)], none⟩
    "dummy content" [("summary", .base)] "summary" "summary" rfl rfl rfl

/-- Claim C6: on a FileBasedProfileRepository whose file read or parse
fails, the cache becomes the empty mapping and every get call — for every
name, also on the instance after the first call — fails with
ProfileNotFoundError carrying that name; the get result type shows the
read or parse error itself never propagates. -/
theorem failed_file_source_degrades_to_empty
    (repo : FileBasedProfileRepository)
    (hcache : repo._profiles = none)
    (hfail : (∃ e, repo.read_str = .error e) ∨
      (∃ c e, repo.read_str = .ok c ∧ repo.parse c = .error e)) :
    ∀ name, (repo.get name).result = .error ⟨name⟩ ∧
      (repo.get name).repo._profiles = some [] ∧
      ∀ name2, ((repo.get name).repo.get name2).result = .error ⟨name2⟩ := by
  intro name
  obtain ⟨hres, hrepo⟩ := fileRepo_get_fresh_fail repo hcache hfail name
  refine ⟨hres, ?_, ?_⟩
  · rw [hrepo]
  · intro name2
    rw [hrepo, fileRepo_get_cached { repo with _profiles := some [] } [] rfl
      name2]
    rfl

theorem failed_file_source_degrades_to_empty_witness :
    (FileBasedProfileRepository.get
        ⟨.error ⟨"File not found"⟩, fun _ => .ok [], none⟩
        "summary").result = .error ⟨"summary"⟩ ∧
    (FileBasedProfileRepository.get
        ⟨.error ⟨"File not found"⟩, fun _ => .ok [], none⟩
        "summary").repo._profiles = some [] ∧
    ((FileBasedProfileRepository.get
        ⟨.error ⟨"File not found"⟩, fun _ => .ok [], none⟩
        "summary").repo.get "default").result = .error ⟨"default"⟩ := by
  have h := failed_file_source_degrades_to_empty
    ⟨.error ⟨"File not found"⟩, fun _ => .ok [], none⟩ rfl
    (.inl ⟨⟨"File not found"⟩, rfl⟩) "summary"
  exact ⟨h.1, h.2.1, h.2.2 "default"⟩

/-- Claim C7: code_bug record — BuiltinDefaultProfileRepository.get
recognizes exactly the name "default" but returns the placeholder
LLMProfile() whose model_name is the literal "llama3.2:3b" (not
"gpt-oss:20b" and not derived from the environment, which get never
consults), and LLMProfile.from_env passes a whitespace-only environment
value through instead of treating it as unset. -/
theorem builtin_default_is_placeholder :
    BuiltinDefaultProfileRepository.get "default"
      = .ok (.llm ⟨defaultPromptTemplate,
          ⟨"llama3.2:3b", "http://localhost:11434"⟩⟩) ∧
    (∀ p, BuiltinDefaultProfileRepository.get "default" = .ok p →
      p ≠ .llm ⟨defaultPromptTemplate,
          ⟨"gpt-oss:20b", "http://localhost:11434"⟩⟩) ∧
    (LLMProfile.from_env
        [("SHTYM_LLM_SETTINGS__MODEL", "   ")]).llm_settings.model_name
      = "   " ∧
    BuiltinDefaultProfileRepository.get "nonexistent"
      = .error ⟨"nonexistent"⟩ := by
  refine ⟨rfl, ?_, rfl, rfl⟩
  intro p hp
  rw [show BuiltinDefaultProfileRepository.get "default"
      = .ok (.llm ⟨defaultPromptTemplate,
          ⟨"llama3.2:3b", "http://localhost:11434"⟩⟩) from rfl] at hp
  cases hp
  decide

theorem builtin_default_is_placeholder_witness :
    BuiltinDefaultProfileRepository.get "default"
      = .ok (.llm ⟨defaultPromptTemplate,
          ⟨"llama3.2:3b", "http://localhost:11434"⟩⟩) ∧
    (Profile.llm ⟨defaultPromptTemplate,
        ⟨"llama3.2:3b", "http://localhost:11434"⟩⟩
      ≠ .llm ⟨defaultPromptTemplate,
          ⟨"gpt-oss:20b", "http://localhost:11434"⟩⟩) :=
  ⟨builtin_default_is_placeholder.1,
   builtin_default_is_placeholder.2.1 _ builtin_default_is_placeholder.1⟩

/-- Claim C8: TOMLProfileParser.parse applied to content whose profiles
table is empty succeeds with the empty mapping rather than an error. -/
theorem empty_profiles_table_parses_to_empty_mapping :
    TOMLProfileParser.parse (.ok [("profiles", .table [])]) = .ok [] := rfl

/-- Claim C9: for every processor and every child-process outcome,
process_command copies the child's exit code and stderr into the result
unchanged; the processor only ever affects the processed_output field. -/
theorem process_command_preserves_exit_code_and_stderr
    (processor : Processor) (command : List String)
    (run_result : CompletedProcess) :
    (ShtymApplication.process_command processor command run_result).returncode
      = run_result.returncode ∧
    (ShtymApplication.process_command processor command run_result).stderr
      = run_result.stderr :=
  ⟨rfl, rfl⟩

/-- Claim C10: LLMProcessor.process is total at its boundary: whatever
exception of whatever kind the client's chat call raises, process catches
it and returns the raw stdout unchanged, with chat having been invoked
exactly once; its result type shows no exception propagates. -/
theorem llm_process_catches_every_chat_exception
    (llm_client : LLMClient) (command : List String)
    (stdout stderr : String) (e : PyException)
    (hchat : llm_client.chat (llmSystemPrompt command) stdout stderr
      = .error e) :
    LLMProcessor.process llm_client command stdout stderr = ⟨stdout, 1⟩ := by
  simp [LLMProcessor.process, hchat]

theorem llm_process_catches_every_chat_exception_witness :
    LLMProcessor.process
      ⟨fun _ _ _ => .error (.runtimeError "Unexpected error"), true⟩
      ["echo", "test"] "test output" "" = ⟨"test output", 1⟩ :=
  llm_process_catches_every_chat_exception
    ⟨fun _ _ _ => .error (.runtimeError "Unexpected error"), true⟩
    ["echo", "test"] "test output" "" (.runtimeError "Unexpected error") rfl
